import Mathlib

/-!
Verification of the core of `magic_mouse_gestures.py`: the touch-block
decoder (`parse_touch`), the report decoder (`parse_report`) and the
gesture-detection state machine (`detect_gesture`).

Modelling conventions:
* a byte buffer is a `List Nat` whose entries are intended to lie in
  `[0, 256)`; byte extraction `tdata[i]` is modelled with `List.getD _ i 0`
  (every call site proved in bounds, see `parse_report_total`);
* Python wall-clock times (floats compared against the exact constants
  `0.4` and `0.5`) are modelled as exact rationals `ℚ`;
* the mutable `GestureState` is threaded explicitly: `detect_gesture`
  returns the optional gesture together with the updated state;
* Python floor division `//` on the non-negative centroid sums is `Nat`
  division.
-/

namespace MagicMouse

/-- The `Touch` dataclass: single touch point on the Magic Mouse surface. -/
structure Touch where
  id : Nat
  x : Nat
  y : Nat
  major : Nat
  minor : Nat
  size : Nat
  orientation : Nat
  state : Nat
deriving DecidableEq

/-- Constant `SWIPE_THRESHOLD = 200` (gesture detection threshold, pixels). -/
def SWIPE_THRESHOLD : Int := 200

/-- Constant `SWIPE_TIME_MAX = 0.4` (seconds). -/
def SWIPE_TIME_MAX : ℚ := 2/5

/-- Gestures returned by `detect_gesture` (the strings `"swipe_left"` /
`"swipe_right"` in the Python source). -/
inductive Gesture where
  | swipe_left : Gesture
  | swipe_right : Gesture
deriving DecidableEq

/-- The `GestureState` dataclass: tracks ongoing gesture state. -/
structure GestureState where
  start_x : Option Nat := none
  start_y : Option Nat := none
  start_time : Option ℚ := none
  finger_count : Nat := 0
  last_gesture_time : ℚ := 0
deriving DecidableEq

/-- Python `parse_touch(data, offset)`: parse 8 bytes of touch data into a
`Touch`.  `tdata = data[offset:offset+8]`; indexing a slice shorter than 8
is modelled with default `0` (all call sites are proved in bounds). -/
def parse_touch (data : List Nat) (offset : Nat) : Touch :=
  let tdata := (data.drop offset).take 8
  { x := tdata.getD 0 0 ||| ((tdata.getD 1 0 &&& 0x0F) <<< 8)
    y := tdata.getD 2 0 ||| ((tdata.getD 1 0 &&& 0xF0) <<< 4)
    major := tdata.getD 3 0
    minor := tdata.getD 4 0
    size := tdata.getD 5 0 &&& 0x3F
    id := ((tdata.getD 5 0 >>> 6) &&& 0x03) ||| ((tdata.getD 6 0 &&& 0x03) <<< 2)
    orientation := (tdata.getD 6 0 >>> 2) &&& 0x3F
    state := (tdata.getD 7 0 >>> 4) &&& 0x0F }

/-- Python `parse_report(data)`: parse a complete HID report (14-byte header,
then `num_fingers` 8-byte touch blocks, keeping the active ones). -/
def parse_report (data : List Nat) : List Touch :=
  if data.length < 14 then []
  else
    let num_fingers := (data.length - 14) / 8
    (List.range num_fingers).foldl
      (fun touches i =>
        let offset := 14 + i * 8
        if offset + 8 ≤ data.length then
          let touch := parse_touch data offset
          if 0 < touch.state ∨ 0 < touch.size then touches ++ [touch]
          else touches
        else touches)
      []

/-- Touch block of slot `i`: the decode of the 8-byte block at offset
`14 + i * 8` (the loop body of `parse_report`). -/
def touchAt (data : List Nat) (i : Nat) : Touch :=
  parse_touch data (14 + i * 8)

/-- Activity filter of `parse_report`: `touch.state > 0 or touch.size > 0`. -/
def activeB (t : Touch) : Bool :=
  decide (0 < t.state ∨ 0 < t.size)

/-- Centroid `avg_x = sum(t.x for t in touches) // len(touches)` (floor-mean). -/
def avg_x (touches : List Touch) : Nat :=
  (touches.map Touch.x).sum / touches.length

/-- Centroid `avg_y = sum(t.y for t in touches) // len(touches)` (floor-mean). -/
def avg_y (touches : List Touch) : Nat :=
  (touches.map Touch.y).sum / touches.length

/-- Python `detect_gesture(touches, state)`: analyze touch data to detect
horizontal swipe gestures.  The Python function reads `now = time.time()`
and mutates `state`; here `now` is an explicit argument and the updated
state is returned alongside the optional gesture.  The `start_y` /
`start_time` reads in the anchored branch use default values for `none`;
the anchor-consistency invariant (all three fields set or cleared
together, proved below) shows the defaults are never consulted on states
arising in the program. -/
def detect_gesture (touches : List Touch) (now : ℚ) (state : GestureState) :
    Option Gesture × GestureState :=
  if now - state.last_gesture_time < 1/2 then
    (none, state)
  else if touches = [] then
    (none, { state with start_x := none, start_y := none, start_time := none,
                        finger_count := 0 })
  else
    match state.start_x with
    | none =>
        (none, { state with start_x := some (avg_x touches),
                            start_y := some (avg_y touches),
                            start_time := some now,
                            finger_count := touches.length })
    | some sx =>
        let delta_x : Int := (avg_x touches : Int) - (sx : Int)
        let delta_y : Int := (avg_y touches : Int) - ((state.start_y.getD 0 : Nat) : Int)
        let elapsed : ℚ := now - state.start_time.getD 0
        if elapsed < SWIPE_TIME_MAX ∧ SWIPE_THRESHOLD < |delta_x| ∧
            |delta_y| * 2 < |delta_x| then
          (some (if 0 < delta_x then Gesture.swipe_right else Gesture.swipe_left),
           { state with start_x := none, start_y := none, start_time := none,
                        last_gesture_time := now })
        else if SWIPE_TIME_MAX < elapsed then
          (none, { state with start_x := some (avg_x touches),
                              start_y := some (avg_y touches),
                              start_time := some now })
        else
          (none, state)

/-- Swipe-qualification condition of `detect_gesture` relative to an anchor
`(sx, sy, st)`: `elapsed < SWIPE_TIME_MAX` and `|delta_x| > SWIPE_THRESHOLD`
and `|delta_x| > |delta_y| * 2`. -/
def qualifies (touches : List Touch) (now : ℚ) (sx sy : Nat) (st : ℚ) : Prop :=
  now - st < SWIPE_TIME_MAX ∧
    SWIPE_THRESHOLD < |(avg_x touches : Int) - (sx : Int)| ∧
    |(avg_y touches : Int) - (sy : Int)| * 2 < |(avg_x touches : Int) - (sx : Int)|

instance (touches : List Touch) (now : ℚ) (sx sy : Nat) (st : ℚ) :
    Decidable (qualifies touches now sx sy st) :=
  inferInstanceAs (Decidable (_ ∧ _ ∧ _))

/-- Anchor consistency: the three anchor fields are all absent or all
present (the optional anchor triple of the specification). -/
def anchor_consistent (s : GestureState) : Prop :=
  (s.start_x = none ∧ s.start_y = none ∧ s.start_time = none) ∨
  (s.start_x.isSome ∧ s.start_y.isSome ∧ s.start_time.isSome)

/-- A touch at a given position with `size = 1`, `state = 1` (an active
contact), used for concrete instantiations. -/
def mkTouch (x y : Nat) : Touch :=
  { id := 0, x := x, y := y, major := 0, minor := 0, size := 1,
    orientation := 0, state := 1 }

/-- Sample 14-byte (all-zero) report header. -/
def hdr14 : List Nat := List.replicate 14 0

/-- Sample 8-byte touch block with `size = 1` (active). -/
def activeBlock : List Nat := [0, 0, 0, 0, 0, 1, 0, 0]

/-- Sample 8-byte all-zero touch block (inactive padding). -/
def zeroBlock : List Nat := List.replicate 8 0

/-! ## Report decoder lemmas -/

/-- Every slot index below `num_fingers` addresses a block lying fully
inside the buffer. -/
theorem slot_in_bounds (data : List Nat) (i : Nat)
    (hi : i < (data.length - 14) / 8) : 14 + i * 8 + 8 ≤ data.length := by
  omega

/-- The accumulation loop of `parse_report` computes the map of the slot
decoder over the slot indices, filtered by the activity test. -/
theorem parse_report_loop (data : List Nat) (n : Nat)
    (hb : ∀ i, i < n → 14 + i * 8 + 8 ≤ data.length) :
    ((List.range n).foldl
      (fun touches i =>
        let offset := 14 + i * 8
        if offset + 8 ≤ data.length then
          let touch := parse_touch data offset
          if 0 < touch.state ∨ 0 < touch.size then touches ++ [touch]
          else touches
        else touches)
      []) = ((List.range n).map (touchAt data)).filter activeB := by
  induction n with
  | zero => simp
  | succ m ih =>
      rw [List.range_succ, List.foldl_append, List.map_append, List.filter_append,
        ih (fun i hi => hb i (Nat.lt_succ_of_lt hi))]
      by_cases hA : 0 < (parse_touch data (14 + m * 8)).state ∨
          0 < (parse_touch data (14 + m * 8)).size <;>
        simp [hb m (Nat.lt_succ_self m), touchAt, activeB, hA, List.filter_cons]

/-- Characterization of `parse_report` on buffers long enough to hold the
header: map the slot decoder over all complete slots, keep active ones. -/
theorem parse_report_char (data : List Nat) (h14 : 14 ≤ data.length) :
    parse_report data =
      ((List.range ((data.length - 14) / 8)).map (touchAt data)).filter activeB := by
  rw [parse_report, if_neg (by omega)]
  exact parse_report_loop data _ (fun i hi => slot_in_bounds data i hi)

/-! ## Claim theorems: decoders -/

/-- C2: for every 8-byte block, `parse_touch` is total and extracts each
field by the stated bit operations; with byte-valued input every field
lies within its declared bit-width range (`x`, `y` < 4096; `major`,
`minor` < 256; `size`, `orientation` < 64; `id`, `state` < 16). -/
theorem parse_touch_fields_and_ranges
    (b0 b1 b2 b3 b4 b5 b6 b7 : Nat)
    (h0 : b0 < 256) (h1 : b1 < 256) (h2 : b2 < 256) (h3 : b3 < 256)
    (h4 : b4 < 256) (h5 : b5 < 256) (h6 : b6 < 256) (h7 : b7 < 256) :
    parse_touch [b0, b1, b2, b3, b4, b5, b6, b7] 0 =
      { x := b0 ||| ((b1 &&& 0x0F) <<< 8)
        y := b2 ||| ((b1 &&& 0xF0) <<< 4)
        major := b3
        minor := b4
        size := b5 &&& 0x3F
        id := ((b5 >>> 6) &&& 0x03) ||| ((b6 &&& 0x03) <<< 2)
        orientation := (b6 >>> 2) &&& 0x3F
        state := (b7 >>> 4) &&& 0x0F } ∧
    (parse_touch [b0, b1, b2, b3, b4, b5, b6, b7] 0).x < 4096 ∧
    (parse_touch [b0, b1, b2, b3, b4, b5, b6, b7] 0).y < 4096 ∧
    (parse_touch [b0, b1, b2, b3, b4, b5, b6, b7] 0).major < 256 ∧
    (parse_touch [b0, b1, b2, b3, b4, b5, b6, b7] 0).minor < 256 ∧
    (parse_touch [b0, b1, b2, b3, b4, b5, b6, b7] 0).size < 64 ∧
    (parse_touch [b0, b1, b2, b3, b4, b5, b6, b7] 0).id < 16 ∧
    (parse_touch [b0, b1, b2, b3, b4, b5, b6, b7] 0).orientation < 64 ∧
    (parse_touch [b0, b1, b2, b3, b4, b5, b6, b7] 0).state < 16 := by
  have hx : b0 ||| ((b1 &&& 0x0F) <<< 8) < 4096 := by
    have ha : b1 &&& 0x0F ≤ 0x0F := Nat.and_le_right
    have hs : (b1 &&& 0x0F) <<< 8 < 2 ^ 12 := by
      rw [Nat.shiftLeft_eq]; norm_num; omega
    have hb : b0 < 2 ^ 12 := by omega
    have := Nat.or_lt_two_pow hb hs
    omega
  have hy : b2 ||| ((b1 &&& 0xF0) <<< 4) < 4096 := by
    have ha : b1 &&& 0xF0 ≤ 0xF0 := Nat.and_le_right
    have hs : (b1 &&& 0xF0) <<< 4 < 2 ^ 12 := by
      rw [Nat.shiftLeft_eq]; norm_num; omega
    have hb : b2 < 2 ^ 12 := by omega
    have := Nat.or_lt_two_pow hb hs
    omega
  have hid : ((b5 >>> 6) &&& 0x03) ||| ((b6 &&& 0x03) <<< 2) < 16 := by
    have ha : (b5 >>> 6) &&& 0x03 ≤ 0x03 := Nat.and_le_right
    have ha' : (b5 >>> 6) &&& 0x03 < 2 ^ 4 := by omega
    have hb : b6 &&& 0x03 ≤ 0x03 := Nat.and_le_right
    have hs : (b6 &&& 0x03) <<< 2 < 2 ^ 4 := by
      rw [Nat.shiftLeft_eq]; norm_num; omega
    have := Nat.or_lt_two_pow ha' hs
    omega
  have hsize : b5 &&& 0x3F < 64 := Nat.lt_succ_of_le Nat.and_le_right
  have hor : (b6 >>> 2) &&& 0x3F < 64 := Nat.lt_succ_of_le Nat.and_le_right
  have hst : (b7 >>> 4) &&& 0x0F < 16 := Nat.lt_succ_of_le Nat.and_le_right
  exact ⟨rfl, hx, hy, h3, h4, hsize, hid, hor, hst⟩

/-- Witness for C2 at the concrete block `[171, 205, 239, 1, 2, 255, 90, 144]`. -/
theorem parse_touch_fields_and_ranges_witness :
    (parse_touch [171, 205, 239, 1, 2, 255, 90, 144] 0).x < 4096 :=
  (parse_touch_fields_and_ranges 171 205 239 1 2 255 90 144
    (by decide) (by decide) (by decide) (by decide)
    (by decide) (by decide) (by decide) (by decide)).2.1

/-- C3: `parse_report` returns `[]` on buffers shorter than 14 bytes; on a
buffer of length `14 + 8k` whose `k` blocks are all active it returns
exactly the `k` decoded blocks in ascending offset order; in general
exactly `(length - 14) / 8` complete blocks are considered (any trailing
partial block is ignored) and the active ones are kept in slot order. -/
theorem parse_report_slot_semantics (data : List Nat) :
    (data.length < 14 → parse_report data = []) ∧
    (∀ k, data.length = 14 + 8 * k →
      (∀ i, i < k → 0 < (touchAt data i).state ∨ 0 < (touchAt data i).size) →
      parse_report data = (List.range k).map (touchAt data)) ∧
    (14 ≤ data.length →
      parse_report data =
        ((List.range ((data.length - 14) / 8)).map (touchAt data)).filter activeB) := by
  refine ⟨fun h => by rw [parse_report, if_pos h], ?_,
    fun h => parse_report_char data h⟩
  intro k hk hact
  have h14 : 14 ≤ data.length := by omega
  have hkk : (data.length - 14) / 8 = k := by omega
  rw [parse_report_char data h14, hkk, List.filter_eq_self.mpr]
  intro a ha
  obtain ⟨i, hi, rfl⟩ := List.mem_map.mp ha
  have := hact i (List.mem_range.mp hi)
  simpa [activeB] using this

/-- Witness for C3: a 22-byte buffer with one active block decodes to
exactly that one sample. -/
theorem parse_report_slot_semantics_witness :
    parse_report (hdr14 ++ activeBlock) =
      (List.range 1).map (touchAt (hdr14 ++ activeBlock)) :=
  (parse_report_slot_semantics (hdr14 ++ activeBlock)).2.1 1 (by decide)
    (fun i hi => by
      have hi0 : i = 0 := by omega
      subst hi0; decide)

/-- C4: no touch with `state = 0` and `size = 0` ever appears in the
output of `parse_report`, and a decoded slot is included exactly when it
passes the activity filter. -/
theorem parse_report_filter_invariant (data : List Nat) :
    (∀ t, t ∈ parse_report data → 0 < t.state ∨ 0 < t.size) ∧
    (14 ≤ data.length →
      parse_report data =
        ((List.range ((data.length - 14) / 8)).map (touchAt data)).filter activeB) := by
  constructor
  · intro t ht
    by_cases h14 : 14 ≤ data.length
    · rw [parse_report_char data h14] at ht
      have := List.of_mem_filter ht
      simpa [activeB] using this
    · rw [parse_report, if_pos (by omega)] at ht
      simp at ht
  · exact parse_report_char data

/-- Witness for C4: a 30-byte buffer with one active and one all-zero
block keeps only the active sample, and the inactive one satisfies the
filter characterization. -/
theorem parse_report_filter_invariant_witness :
    (0 < (touchAt (hdr14 ++ activeBlock ++ zeroBlock) 0).state ∨
      0 < (touchAt (hdr14 ++ activeBlock ++ zeroBlock) 0).size) ∧
    parse_report (hdr14 ++ activeBlock ++ zeroBlock) =
      ((List.range (((hdr14 ++ activeBlock ++ zeroBlock).length - 14) / 8)).map
        (touchAt (hdr14 ++ activeBlock ++ zeroBlock))).filter activeB :=
  ⟨(parse_report_filter_invariant (hdr14 ++ activeBlock ++ zeroBlock)).1
      (touchAt (hdr14 ++ activeBlock ++ zeroBlock) 0) (by decide),
   (parse_report_filter_invariant (hdr14 ++ activeBlock ++ zeroBlock)).2 (by decide)⟩

/-- C9: `parse_report` is total (it is a function on arbitrary buffers):
short buffers yield `[]`, every slice handed to `parse_touch` lies fully
in bounds, and the output never exceeds the number of complete blocks. -/
theorem parse_report_total_and_in_bounds (data : List Nat) :
    (data.length < 14 → parse_report data = []) ∧
    (∀ i, i < (data.length - 14) / 8 → 14 + i * 8 + 8 ≤ data.length) ∧
    (parse_report data).length ≤ (data.length - 14) / 8 := by
  refine ⟨fun h => by rw [parse_report, if_pos h],
    fun i hi => slot_in_bounds data i hi, ?_⟩
  by_cases h14 : 14 ≤ data.length
  · rw [parse_report_char data h14]
    calc (((List.range ((data.length - 14) / 8)).map (touchAt data)).filter
            activeB).length
        ≤ ((List.range ((data.length - 14) / 8)).map (touchAt data)).length :=
          List.length_filter_le _ _
      _ = (data.length - 14) / 8 := by simp
  · rw [parse_report, if_pos (by omega)]
    simp

/-- Witness for C9: a 13-byte buffer decodes to `[]`, and slot 0 of a
22-byte buffer is in bounds. -/
theorem parse_report_total_and_in_bounds_witness :
    parse_report (List.replicate 13 0) = [] ∧
    14 + 0 * 8 + 8 ≤ (hdr14 ++ activeBlock).length :=
  ⟨(parse_report_total_and_in_bounds (List.replicate 13 0)).1 (by decide),
   (parse_report_total_and_in_bounds (hdr14 ++ activeBlock)).2.1 0 (by decide)⟩

/-! ## Gesture detector lemmas -/

/-- During the cooldown window, `detect_gesture` is the identity on the
state and returns no gesture. -/
theorem detect_gesture_cooldown_eq (touches : List Touch) (now : ℚ)
    (s : GestureState) (h : now - s.last_gesture_time < 1/2) :
    detect_gesture touches now s = (none, s) := by
  unfold detect_gesture
  rw [if_pos h]

/-- With the cooldown passed, an empty touch list clears the anchor. -/
theorem detect_gesture_empty_eq (now : ℚ) (s : GestureState)
    (hcool : ¬ now - s.last_gesture_time < 1/2) :
    detect_gesture [] now s =
      (none, { s with start_x := none, start_y := none, start_time := none,
                      finger_count := 0 }) := by
  unfold detect_gesture
  rw [if_neg hcool, if_pos rfl]

/-- With the cooldown passed, touches present and no anchor,
`detect_gesture` establishes the anchor at the centroid. -/
theorem detect_gesture_establish_eq (touches : List Touch) (now : ℚ)
    (s : GestureState) (hcool : ¬ now - s.last_gesture_time < 1/2)
    (hne : touches ≠ []) (hnone : s.start_x = none) :
    detect_gesture touches now s =
      (none, { s with start_x := some (avg_x touches),
                      start_y := some (avg_y touches),
                      start_time := some now,
                      finger_count := touches.length }) := by
  unfold detect_gesture
  rw [if_neg hcool, if_neg hne, hnone]

/-- Behaviour of `detect_gesture` in the anchored branch (cooldown
passed, touches present, anchor set): classify, re-base, or wait. -/
theorem detect_gesture_anchored (touches : List Touch) (now : ℚ)
    (s : GestureState) (sx sy : Nat) (st : ℚ)
    (hcool : ¬ now - s.last_gesture_time < 1/2) (hne : touches ≠ [])
    (hx : s.start_x = some sx) (hy : s.start_y = some sy)
    (ht : s.start_time = some st) :
    detect_gesture touches now s =
      if qualifies touches now sx sy st then
        (some (if 0 < (avg_x touches : Int) - (sx : Int) then Gesture.swipe_right
               else Gesture.swipe_left),
         { s with start_x := none, start_y := none, start_time := none,
                  last_gesture_time := now })
      else if SWIPE_TIME_MAX < now - st then
        (none, { s with start_x := some (avg_x touches),
                        start_y := some (avg_y touches),
                        start_time := some now })
      else (none, s) := by
  unfold detect_gesture
  rw [if_neg hcool, if_neg hne, hx, hy, ht]
  rfl

/-! ## Claim theorems: gesture detector -/

/-- C5: during the cooldown window (`now - lastGestureTime < 0.5`) the
detector returns absent and leaves the state completely unchanged, for
every touch input (including the empty list). -/
theorem detect_gesture_cooldown_gate (touches : List Touch) (now : ℚ)
    (s : GestureState) (h : now - s.last_gesture_time < 1/2) :
    detect_gesture touches now s = (none, s) :=
  detect_gesture_cooldown_eq touches now s h

/-- Witness for C5 at a concrete state and an empty touch list (the
no-touch reset is skipped during cooldown). -/
theorem detect_gesture_cooldown_gate_witness :
    detect_gesture [] (1/4) ⟨some 1, some 2, some 0, 3, 0⟩ =
      (none, ⟨some 1, some 2, some 0, 3, 0⟩) :=
  detect_gesture_cooldown_gate [] (1/4) ⟨some 1, some 2, some 0, 3, 0⟩
    (by norm_num)

/-- C1: with the cooldown passed, touches present and an anchor set, a
gesture is returned iff `elapsed < 0.4 ∧ |dx| > 200 ∧ |dx| > 2|dy|`; on
emission the gesture is `swipe_right` when `dx > 0` (else `swipe_left`),
the anchor is cleared and `lastGestureTime` becomes `now`. -/
theorem detect_gesture_swipe_classification (touches : List Touch) (now : ℚ)
    (s : GestureState) (sx sy : Nat) (st : ℚ)
    (hcool : ¬ now - s.last_gesture_time < 1/2) (hne : touches ≠ [])
    (hx : s.start_x = some sx) (hy : s.start_y = some sy)
    (ht : s.start_time = some st) :
    ((detect_gesture touches now s).1.isSome ↔ qualifies touches now sx sy st) ∧
    (qualifies touches now sx sy st →
      detect_gesture touches now s =
        (some (if 0 < (avg_x touches : Int) - (sx : Int) then Gesture.swipe_right
               else Gesture.swipe_left),
         { s with start_x := none, start_y := none, start_time := none,
                  last_gesture_time := now })) := by
  rw [detect_gesture_anchored touches now s sx sy st hcool hne hx hy ht]
  by_cases hq : qualifies touches now sx sy st
  · simp [hq]
  · by_cases he : SWIPE_TIME_MAX < now - st <;> simp [hq, he]

/-- Witness for C1: the spec's concrete case — anchor `(500, 1000)` at
`t = 0`, centroid `(750, 1010)` at `t = 0.1` yields `swipe_right`, clears
the anchor and stamps the gesture time. -/
theorem detect_gesture_swipe_classification_witness :
    detect_gesture [mkTouch 750 1010] (1/10) ⟨some 500, some 1000, some 0, 1, -1⟩ =
      (some Gesture.swipe_right, ⟨none, none, none, 1, 1/10⟩) := by
  have h := (detect_gesture_swipe_classification [mkTouch 750 1010] (1/10)
      ⟨some 500, some 1000, some 0, 1, -1⟩ 500 1000 0 (by norm_num) (by simp)
      rfl rfl rfl).2
    (by norm_num [qualifies, avg_x, avg_y, mkTouch, SWIPE_THRESHOLD, SWIPE_TIME_MAX])
  rw [h]
  norm_num [avg_x, avg_y, mkTouch]

/-- C6: with an anchor set, touches present and the cooldown passed, if no
swipe qualifies then: past the 0.4 s window the anchor re-bases to the
current centroid and time (absent returned); within the window the state
is unchanged (absent returned). -/
theorem detect_gesture_rebase_or_wait (touches : List Touch) (now : ℚ)
    (s : GestureState) (sx sy : Nat) (st : ℚ)
    (hcool : ¬ now - s.last_gesture_time < 1/2) (hne : touches ≠ [])
    (hx : s.start_x = some sx) (hy : s.start_y = some sy)
    (ht : s.start_time = some st)
    (hnq : ¬ qualifies touches now sx sy st) :
    (SWIPE_TIME_MAX < now - st →
      detect_gesture touches now s =
        (none, { s with start_x := some (avg_x touches),
                        start_y := some (avg_y touches),
                        start_time := some now })) ∧
    (now - st ≤ SWIPE_TIME_MAX → detect_gesture touches now s = (none, s)) := by
  rw [detect_gesture_anchored touches now s sx sy st hcool hne hx hy ht,
    if_neg hnq]
  constructor
  · intro h
    rw [if_pos h]
  · intro h
    rw [if_neg (not_lt.mpr h)]

/-- Witness for C6: the spec's stale re-anchoring chain — anchor
`(0, 0, t=0)`, centroid `(50, 0)` at `t = 0.5` re-bases the anchor to
`(50, 0, 0.5)`, and a following call with centroid `(260, 0)` at
`t = 0.55` emits a swipe. -/
theorem detect_gesture_rebase_or_wait_witness :
    (detect_gesture [mkTouch 50 0] (1/2) ⟨some 0, some 0, some 0, 1, -1⟩ =
      (none, ⟨some 50, some 0, some (1/2), 1, -1⟩)) ∧
    (detect_gesture [mkTouch 260 0] (11/20) ⟨some 50, some 0, some (1/2), 1, -1⟩).1 =
      some Gesture.swipe_right := by
  constructor
  · have h := (detect_gesture_rebase_or_wait [mkTouch 50 0] (1/2)
        ⟨some 0, some 0, some 0, 1, -1⟩ 0 0 0 (by norm_num) (by simp) rfl rfl rfl
        (by norm_num [qualifies, avg_x, avg_y, mkTouch, SWIPE_THRESHOLD,
          SWIPE_TIME_MAX])).1
      (by norm_num [SWIPE_TIME_MAX])
    rw [h]
    norm_num [avg_x, avg_y, mkTouch]
  · norm_num [detect_gesture, avg_x, avg_y, mkTouch, SWIPE_THRESHOLD,
      SWIPE_TIME_MAX]

/-- C7: with the cooldown passed, an empty touch list clears the anchor
(`fingerCount := 0`) and returns absent; a non-empty list with no anchor
set establishes the anchor at the floor-mean centroid with time `now`,
records the finger count, and returns absent. -/
theorem detect_gesture_reset_and_anchor (touches : List Touch) (now : ℚ)
    (s : GestureState) (hcool : ¬ now - s.last_gesture_time < 1/2) :
    (touches = [] →
      detect_gesture touches now s =
        (none, { s with start_x := none, start_y := none, start_time := none,
                        finger_count := 0 })) ∧
    (touches ≠ [] → s.start_x = none →
      detect_gesture touches now s =
        (none, { s with start_x := some (avg_x touches),
                        start_y := some (avg_y touches),
                        start_time := some now,
                        finger_count := touches.length })) := by
  constructor
  · intro h
    subst h
    exact detect_gesture_empty_eq now s hcool
  · intro hne hnone
    exact detect_gesture_establish_eq touches now s hcool hne hnone

/-- Witness for C7: clearing on an empty list, then a brand-new anchor on
the following non-empty call. -/
theorem detect_gesture_reset_and_anchor_witness :
    (detect_gesture [] 1 ⟨some 5, some 6, some 0, 2, 0⟩ =
      (none, ⟨none, none, none, 0, 0⟩)) ∧
    (detect_gesture [mkTouch 10 20] 2 ⟨none, none, none, 0, 0⟩ =
      (none, ⟨some 10, some 20, some 2, 1, 0⟩)) := by
  constructor
  · have h := (detect_gesture_reset_and_anchor [] 1 ⟨some 5, some 6, some 0, 2, 0⟩
        (by norm_num)).1 rfl
    rw [h]
  · have h := (detect_gesture_reset_and_anchor [mkTouch 10 20] 2
        ⟨none, none, none, 0, 0⟩ (by norm_num)).2 (by simp) rfl
    rw [h]
    norm_num [avg_x, avg_y, mkTouch]

/-- C10: every call to `detect_gesture` preserves the invariant that the
three anchor fields `start_x`, `start_y`, `start_time` are all absent or
all present. -/
theorem detect_gesture_anchor_consistent (touches : List Touch) (now : ℚ)
    (s : GestureState) (h : anchor_consistent s) :
    anchor_consistent (detect_gesture touches now s).2 := by
  by_cases hcool : now - s.last_gesture_time < 1/2
  · rw [detect_gesture_cooldown_eq touches now s hcool]
    exact h
  · by_cases hne : touches = []
    · subst hne
      rw [detect_gesture_empty_eq now s hcool]
      left
      exact ⟨rfl, rfl, rfl⟩
    · cases hsx : s.start_x with
      | none =>
          rw [detect_gesture_establish_eq touches now s hcool hne hsx]
          right
          exact ⟨rfl, rfl, rfl⟩
      | some sx =>
          rcases h with ⟨h1, _, _⟩ | ⟨_, h2, h3⟩
          · rw [hsx] at h1
            exact absurd h1 (by simp)
          · obtain ⟨sy, hsy⟩ := Option.isSome_iff_exists.mp h2
            obtain ⟨st, hst⟩ := Option.isSome_iff_exists.mp h3
            rw [detect_gesture_anchored touches now s sx sy st hcool hne hsx
              hsy hst]
            by_cases hq : qualifies touches now sx sy st
            · rw [if_pos hq]
              left
              exact ⟨rfl, rfl, rfl⟩
            · rw [if_neg hq]
              by_cases he : SWIPE_TIME_MAX < now - st
              · rw [if_pos he]
                right
                exact ⟨rfl, rfl, rfl⟩
              · rw [if_neg he]
                right
                rw [hsx, hsy, hst]
                exact ⟨rfl, rfl, rfl⟩

/-- C8 counterexample: starting from the initial state, a first call with
two touches establishes the anchor (`finger_count = 2`); a second call
with a single touch at `t = 1.5` re-bases the anchor (its `start_time`
becomes `1.5`), yet `finger_count` stays `2` even though the call that
most recently set the anchor observed `1` touch. -/
theorem finger_count_rebase_counterexample :
    ((detect_gesture [mkTouch 50 0] (3/2)
        (detect_gesture [mkTouch 0 0, mkTouch 0 0] 1
          ⟨none, none, none, 0, 0⟩).2).2.start_time = some (3/2)) ∧
    ((detect_gesture [mkTouch 50 0] (3/2)
        (detect_gesture [mkTouch 0 0, mkTouch 0 0] 1
          ⟨none, none, none, 0, 0⟩).2).2.finger_count = 2) ∧
    [mkTouch 50 0].length = 1 := by
  have h1 : detect_gesture [mkTouch 0 0, mkTouch 0 0] 1 ⟨none, none, none, 0, 0⟩ =
      (none, ⟨some 0, some 0, some 1, 2, 0⟩) := by
    norm_num [detect_gesture, avg_x, avg_y, mkTouch]
    simp
  rw [h1]
  norm_num [detect_gesture, avg_x, avg_y, mkTouch, SWIPE_THRESHOLD, SWIPE_TIME_MAX]

/-- C8 amended: `finger_count` records the touch count of the call that
established the anchor from the no-anchor state; anchored calls
(emission, re-basing or waiting) leave it unchanged. -/
theorem finger_count_establishment_only (touches : List Touch) (now : ℚ)
    (s : GestureState) (hcool : ¬ now - s.last_gesture_time < 1/2)
    (hne : touches ≠ []) :
    (s.start_x = none →
      (detect_gesture touches now s).2.finger_count = touches.length) ∧
    (∀ sx, s.start_x = some sx →
      (detect_gesture touches now s).2.finger_count = s.finger_count) := by
  constructor
  · intro h
    rw [detect_gesture_establish_eq touches now s hcool hne h]
  · intro sx hx
    unfold detect_gesture
    rw [if_neg hcool, if_neg hne, hx]
    split
    · rename_i heq
      exact absurd heq (by simp)
    · dsimp only
      split_ifs <;> rfl

/-- Witness for the amended C8: establishment records the count; a
re-basing call keeps the previously recorded count. -/
theorem finger_count_establishment_only_witness :
    ((detect_gesture [mkTouch 1 2] 1 ⟨none, none, none, 0, 0⟩).2.finger_count = 1) ∧
    ((detect_gesture [mkTouch 1 2] 1
        ⟨some 0, some 0, some 1, 5, 0⟩).2.finger_count = 5) :=
  ⟨(finger_count_establishment_only [mkTouch 1 2] 1 ⟨none, none, none, 0, 0⟩
      (by norm_num) (by simp)).1 rfl,
   (finger_count_establishment_only [mkTouch 1 2] 1 ⟨some 0, some 0, some 1, 5, 0⟩
      (by norm_num) (by simp)).2 0 rfl⟩

/-- Witness for C10 at the initial state. -/
theorem detect_gesture_anchor_consistent_witness :
    anchor_consistent (detect_gesture [mkTouch 3 4] 1 ⟨none, none, none, 0, 0⟩).2 :=
  detect_gesture_anchor_consistent [mkTouch 3 4] 1 ⟨none, none, none, 0, 0⟩
    (Or.inl ⟨rfl, rfl, rfl⟩)

end MagicMouse
